import Mathlib

/-!
Shallow embedding of the session/workflow core of a Flask analytics
application (source files `app.py`, `utils/session_manager.py`,
`utils/validators.py`).

Conventions of the embedding:
* Python strings are Lean `String`; `len` is `String.length`.
* Python dictionaries are association lists in insertion order, with
  assignment replacing the first binding of the key in place.
* Python object identity, needed for the aliasing behaviour of session
  handles and for dataframe defensive copies, is made explicit with
  address-indexed heaps (`World` for session state objects, `DfStore`
  for dataframe objects).
* Fallible code returns `Except`; an uncaught Python exception is an
  `Except.error` value.
-/

/-- Embedding of the Python runtime values a query result (or any other
dynamically typed payload) can take: pandas DataFrame and Series, bool,
int, float, str, or any other object (carried by the string that `str`
produces for it). Float payloads are carried as exact rationals; the
code under study only copies them around, it never computes with them. -/
inductive PyValue where
  | dataframe (rows : Nat) (columns : List String)
  | series (length : Nat) (name : Option String)
  | pyBool (b : Bool)
  | pyInt (n : Int)
  | pyFloat (x : Rat)
  | pyStr (s : String)
  | other (str_repr : String)
deriving DecidableEq

/-- Embedding of the Python builtin `str` applied to a value. The
`dataframe` and `series` arms are never reached by the history
normalizer, which classifies those shapes earlier. -/
def py_str : PyValue → String
  | .dataframe _ _ => "<DataFrame>"
  | .series _ _ => "<Series>"
  | .pyBool b => if b then "True" else "False"
  | .pyInt n => toString n
  | .pyFloat x => toString x
  | .pyStr s => s
  | .other r => r

/-- Embedding of `isinstance(result, (int, float))`. A Python `bool` is
a subclass of `int`, so booleans satisfy this check. -/
def isinstance_int_float : PyValue → Bool
  | .pyBool _ => true
  | .pyInt _ => true
  | .pyFloat _ => true
  | _ => false

/-- Embedding of the Python method `str.strip()` with no arguments:
removes leading and trailing whitespace. -/
def pyStrip (s : String) : String :=
  ⟨((s.data.dropWhile Char.isWhitespace).reverse.dropWhile Char.isWhitespace).reverse⟩

/-- Embedding of the Python method `str.lower()` (ASCII case map; every
string the deny list compares against is ASCII). -/
def pyLower (s : String) : String :=
  ⟨s.data.map Char.toLower⟩

/-- `charsStartWith needle hay` holds when `needle` is an initial
segment of `hay` (character lists). -/
def charsStartWith : List Char → List Char → Bool
  | [], _ => true
  | _ :: _, [] => false
  | n :: ns, h :: hs => n == h && charsStartWith ns hs

/-- `charsContain needle hay` holds when `needle` occurs contiguously
somewhere inside `hay`. -/
def charsContain (needle : List Char) : List Char → Bool
  | [] => charsStartWith needle []
  | h :: hs => charsStartWith needle (h :: hs) || charsContain needle hs

/-- Embedding of the Python substring test `needle in haystack`. -/
def strContains (haystack needle : String) : Bool :=
  charsContain needle.data haystack.data

/-- `QueryValidator.validate_query` from `utils/validators.py`. Note
that the length bounds are checked on the raw string (`len(query)`),
while only the emptiness check looks at the stripped string. -/
def validate_query (query : String) : Bool × String :=
  if query = "" ∨ pyStrip query = "" then (false, "Query cannot be empty")
  else if query.length < 3 then (false, "Query too short (minimum 3 characters)")
  else if query.length > 500 then (false, "Query too long (maximum 500 characters)")
  else (true, "Valid query")

/-- The fixed deny list `dangerous_keywords` of
`QueryValidator.is_safe_query` in `utils/validators.py`. -/
def dangerous_keywords : List String :=
  ["drop table", "delete from", "truncate",
   "insert into", "update set", "exec",
   "system", "os.", "eval(", "exec("]

/-- `QueryValidator.is_safe_query` from `utils/validators.py`: lowercase
the query, scan the deny list in order, and reject on the first keyword
that occurs as a substring, naming it in the message. -/
def is_safe_query (query : String) : Bool × String :=
  let query_lower := pyLower query
  match dangerous_keywords.find? (fun keyword => strContains query_lower keyword) with
  | some keyword =>
      (false, "Query contains potentially dangerous operation: \x27" ++ keyword ++ "\x27")
  | none => (true, "Query is safe")

/-- Claim C4, counterexample: the claim says `validate_query` accepts
exactly when the TRIMMED length lies in `[3, 500]`, but the input
`" a "` (raw length 3, trimmed length 1) is accepted by the code even
though its trimmed length is below 3. -/
theorem c4_counterexample :
    (validate_query " a ").fst = true
    ∧ (pyStrip " a ").length = 1
    ∧ ¬ (3 ≤ (pyStrip " a ").length) := by decide

/-- Claim C4 (amended): `validate_query` returns ok exactly when the
stripped string is nonempty and the RAW (untrimmed) length is between 3
and 500 inclusive; a string of length 2 fails and the string `"abc"`
passes. -/
theorem c4_validate_query_bounds (query : String) :
    ((validate_query query).fst = true
      ↔ (pyStrip query ≠ "" ∧ 3 ≤ query.length ∧ query.length ≤ 500))
    ∧ (validate_query "ab").fst = false
    ∧ (validate_query "abc").fst = true := by
  refine ⟨?_, by decide, by decide⟩
  unfold validate_query
  by_cases h0 : query = "" ∨ pyStrip query = ""
  · simp only [h0, if_true]
    constructor
    · intro h; exact absurd h (by simp)
    · rintro ⟨hne, -, -⟩
      rcases h0 with h0 | h0
      · exact absurd (by rw [h0]; decide) hne
      · exact absurd h0 hne
  · push_neg at h0
    simp only [h0, if_false, eq_self_iff_true]
    rcases h0 with ⟨-, hstrip⟩
    by_cases h1 : query.length < 3
    · simp only [h1, if_true]
      constructor
      · intro h; exact absurd h (by simp)
      · rintro ⟨-, h3, -⟩; omega
    · by_cases h2 : query.length > 500
      · simp only [h1, h2, if_false, if_true]
        constructor
        · intro h; exact absurd h (by simp)
        · rintro ⟨-, -, h5⟩; omega
      · simp only [h1, h2, if_false]
        constructor
        · intro _; exact ⟨hstrip, by omega, by omega⟩
        · intro _; rfl

/-- Claim C7: `is_safe_query` rejects exactly when some deny-list token
occurs in the lowercased query; whenever it rejects, the message names a
matching token; and the concrete query `"DROP TABLE users"` is rejected
with the token `drop table` named. -/
theorem c7_safe_query_denylist (query : String) :
    ((is_safe_query query).fst = false
      ↔ ∃ keyword, keyword ∈ dangerous_keywords
          ∧ strContains (pyLower query) keyword = true)
    ∧ ((is_safe_query query).fst = true
        ∨ ∃ keyword, keyword ∈ dangerous_keywords
            ∧ strContains (pyLower query) keyword = true
            ∧ (is_safe_query query).snd =
                "Query contains potentially dangerous operation: \x27" ++ keyword ++ "\x27")
    ∧ is_safe_query "DROP TABLE users" =
        (false, "Query contains potentially dangerous operation: \x27drop table\x27") := by
  refine ⟨?_, ?_, by decide⟩
  · unfold is_safe_query
    cases hf : dangerous_keywords.find? (fun keyword => strContains (pyLower query) keyword) with
    | none =>
        simp only [hf]
        constructor
        · intro h; exact absurd h (by simp)
        · rintro ⟨k, hk, hc⟩
          have := List.find?_eq_none.mp hf k hk
          simp [hc] at this
    | some k =>
        simp only [hf]
        constructor
        · intro _
          exact ⟨k, List.mem_of_find?_eq_some hf, by
            have := List.find?_some hf
            simpa using this⟩
        · intro _; trivial
  · unfold is_safe_query
    cases hf : dangerous_keywords.find? (fun keyword => strContains (pyLower query) keyword) with
    | none => left; simp [hf]
    | some k =>
        right
        exact ⟨k, List.mem_of_find?_eq_some hf, by
          have := List.find?_some hf
          simpa using this, by simp [hf]⟩

/-- One record of `SessionState.cleaning_log`, as appended by
`SessionManager.add_cleaning_log`. -/
structure LogEntry where
  timestamp : String
  action : String
  details : String
deriving DecidableEq

/-- One record of `SessionState.query_history`, as appended by
`SessionManager.add_query`. -/
structure QueryEntry where
  timestamp : String
  query : String
  result : PyValue
  explanation : String
deriving DecidableEq

/-- One record of `SessionState.generated_charts`, as appended by
`SessionManager.add_chart` (the chart object itself is an opaque
Python value). -/
structure ChartEntry where
  timestamp : String
  chart : PyValue
  chart_type : String
  title : String
deriving DecidableEq

/-- One record of `SessionState.insights`, as appended by
`SessionManager.add_insight`. -/
structure InsightEntry where
  timestamp : String
  text : String
  category : String
deriving DecidableEq

/-- A pandas dataframe value: column names plus row data. -/
structure DataFrame where
  columns : List String
  rows : List (List PyValue)
deriving DecidableEq

/-- Outcome of `json.dumps(figure, cls=PlotlyJSONEncoder)` on a stored
figure object: a JSON string on success, `TypeError` when some object in
the figure is not serializable, `ValueError` when the structure is
circular (`json.dumps` raises `ValueError` on circular references).
The source catches only `TypeError`. -/
inductive DumpResult where
  | ok (json : String)
  | typeError
  | valueError
deriving DecidableEq

/-- One element of `SessionState.chart_payloads`: a dictionary of chart
fields plus an optional `figure` entry. `figure = none` stands for a
missing or falsy figure value, which the code replaces by the empty
dictionary before encoding. -/
structure Chart where
  fields : List (String × PyValue)
  figure : Option DumpResult
deriving DecidableEq

/-- Dictionary assignment `d[k] = v`: replaces the first binding of `k`
in place, or appends a new binding (Python dictionaries preserve
insertion order). -/
def dictSet {β : Type} (d : List (String × β)) (k : String) (v : β) : List (String × β) :=
  match d with
  | [] => [(k, v)]
  | (k0, v0) :: rest => if k0 = k then (k, v) :: rest else (k0, v0) :: dictSet rest k v

/-- Dictionary lookup `d[k]` / `d.get(k)`. -/
def dictGet {β : Type} (d : List (String × β)) (k : String) : Option β :=
  match d with
  | [] => none
  | (k0, v0) :: rest => if k0 = k then some v0 else dictGet rest k

/-- Dictionary membership `k in d`. -/
def dictMem {β : Type} (d : List (String × β)) (k : String) : Bool :=
  (dictGet d k).isSome

/-- Dictionary removal `d.pop(k, None)`: removes the first binding of
`k` if present, otherwise leaves the dictionary unchanged. -/
def dictPop {β : Type} (d : List (String × β)) (k : String) : List (String × β) :=
  match d with
  | [] => []
  | (k0, v0) :: rest => if k0 = k then rest else (k0, v0) :: dictPop rest k

/-- The `SessionState` dataclass of `utils/session_manager.py`, with the
default values of its `field(default_factory=...)` declarations. -/
structure SessionState where
  raw_dataframe : Option DataFrame := none
  cleaned_dataframe : Option DataFrame := none
  current_dataframe : Option DataFrame := none
  dataset_metadata : List (String × PyValue) := []
  cleaning_log : List LogEntry := []
  query_history : List QueryEntry := []
  generated_charts : List ChartEntry := []
  insights : List InsightEntry := []
  agent_status : List (String × Bool) :=
    [("input_complete", false), ("cleaning_complete", false), ("nlq_ready", false)]
  uploaded_file_info : List (String × PyValue) := []
  dataset_preview : List (String × PyValue) := []
  cleaning_summary : List (String × PyValue) := []
  last_query_result : List (String × PyValue) := []
  chart_payloads : List Chart := []
  report_status : List (String × PyValue) := []
deriving DecidableEq

/-- The value produced by the constructor call `SessionState()`. -/
def SessionState.init : SessionState := {}

/-- `SessionManager.set_dataframe` at the level of the state value: the
`raw` branch also assigns `raw_dataframe`, the `cleaned` branch also
assigns `cleaned_dataframe`, and every branch assigns
`current_dataframe`. Each Python assignment stores `df.copy()`; copies
have the same value, so at the value level the copy is the identity
(aliasing is treated separately in the dataframe heap model below). -/
def set_dataframe (s : SessionState) (df : DataFrame) (df_type : String) : SessionState :=
  let s1 :=
    if df_type = "raw" then { s with raw_dataframe := some df }
    else if df_type = "cleaned" then { s with cleaned_dataframe := some df }
    else s
  { s1 with current_dataframe := some df }

/-- `SessionManager.get_dataframe`. -/
def get_dataframe (s : SessionState) (df_type : String) : Option DataFrame :=
  if df_type = "raw" then s.raw_dataframe
  else if df_type = "cleaned" then s.cleaned_dataframe
  else s.current_dataframe

/-- `SessionManager.add_cleaning_log`; the timestamp produced by
`datetime.now()` is threaded in as an argument. -/
def add_cleaning_log (s : SessionState) (timestamp action details : String) : SessionState :=
  { s with cleaning_log := s.cleaning_log ++ [⟨timestamp, action, details⟩] }

/-- `SessionManager.add_query`. -/
def add_query (s : SessionState) (timestamp query : String) (result : PyValue)
    (explanation : String) : SessionState :=
  { s with query_history := s.query_history ++ [⟨timestamp, query, result, explanation⟩] }

/-- `SessionManager.add_chart`. -/
def add_chart (s : SessionState) (timestamp : String) (chart_obj : PyValue)
    (chart_type title : String) : SessionState :=
  { s with generated_charts := s.generated_charts ++ [⟨timestamp, chart_obj, chart_type, title⟩] }

/-- `SessionManager.add_insight`. -/
def add_insight (s : SessionState) (timestamp insight category : String) : SessionState :=
  { s with insights := s.insights ++ [⟨timestamp, insight, category⟩] }

/-- `SessionManager.set_metadata`. -/
def set_metadata (s : SessionState) (key : String) (value : PyValue) : SessionState :=
  { s with dataset_metadata := dictSet s.dataset_metadata key value }

/-- `SessionManager.update_agent_status`. -/
def update_agent_status (s : SessionState) (agent : String) (status : Bool) : SessionState :=
  { s with agent_status := dictSet s.agent_status agent status }

/-- `SessionManager.set_file_info`. -/
def set_file_info (s : SessionState) (info : List (String × PyValue)) : SessionState :=
  { s with uploaded_file_info := info }

/-- The mutating operations of `SessionManager` acting on one session
state value (the timestamps produced by `datetime.now()` appear as
constructor arguments). -/
inductive SMOp where
  | setDataframe (df : DataFrame) (df_type : String)
  | addCleaningLog (timestamp action details : String)
  | addQuery (timestamp query : String) (result : PyValue) (explanation : String)
  | addChart (timestamp : String) (chart_obj : PyValue) (chart_type title : String)
  | addInsight (timestamp insight category : String)
  | setMetadata (key : String) (value : PyValue)
  | updateAgentStatus (agent : String) (status : Bool)
  | setFileInfo (info : List (String × PyValue))
  | resetSession
deriving DecidableEq

/-- The effect of each `SessionManager` operation on the session state
value; `reset_session` installs a freshly constructed `SessionState()`. -/
def applySMOp (s : SessionState) : SMOp → SessionState
  | .setDataframe df t => set_dataframe s df t
  | .addCleaningLog ts a d => add_cleaning_log s ts a d
  | .addQuery ts q r e => add_query s ts q r e
  | .addChart ts c t ti => add_chart s ts c t ti
  | .addInsight ts t c => add_insight s ts t c
  | .setMetadata k v => set_metadata s k v
  | .updateAgentStatus a st => update_agent_status s a st
  | .setFileInfo i => set_file_info s i
  | .resetSession => SessionState.init

/-- Claim C8: every `SessionManager` operation other than
`reset_session` keeps each of the four history lists a prefix of its new
value (stated as: taking the old length from the new list returns the
old list), and each `add_*` operation appends exactly one record to the
end of its list. -/
theorem c8_append_only (op : SMOp) (s : SessionState)
    (ts act det q e ti cat txt : String) (res cv : PyValue)
    (hop : op ≠ SMOp.resetSession) :
    ((applySMOp s op).cleaning_log.take s.cleaning_log.length = s.cleaning_log
      ∧ (applySMOp s op).query_history.take s.query_history.length = s.query_history
      ∧ (applySMOp s op).generated_charts.take s.generated_charts.length = s.generated_charts
      ∧ (applySMOp s op).insights.take s.insights.length = s.insights)
    ∧ (applySMOp s (.addCleaningLog ts act det)).cleaning_log
        = s.cleaning_log ++ [⟨ts, act, det⟩]
    ∧ (applySMOp s (.addQuery ts q res e)).query_history
        = s.query_history ++ [⟨ts, q, res, e⟩]
    ∧ (applySMOp s (.addChart ts cv act ti)).generated_charts
        = s.generated_charts ++ [⟨ts, cv, act, ti⟩]
    ∧ (applySMOp s (.addInsight ts txt cat)).insights
        = s.insights ++ [⟨ts, txt, cat⟩] := by
  refine ⟨?_, rfl, rfl, rfl, rfl⟩
  have htake : ∀ {α : Type} (l t : List α), (l ++ t).take l.length = l := by
    intro α l t
    exact List.take_left l t
  cases op with
  | setDataframe df t =>
      unfold applySMOp set_dataframe
      by_cases h1 : t = "raw" <;> by_cases h2 : t = "cleaned" <;>
        simp [h1, h2, List.take_length]
  | addCleaningLog a b c => exact ⟨htake _ _, by simp [List.take_length, applySMOp, add_cleaning_log]⟩
  | addQuery a b c d =>
      refine ⟨by simp [List.take_length, applySMOp, add_query], htake _ _, ?_, ?_⟩ <;>
        simp [List.take_length, applySMOp, add_query]
  | addChart a b c d =>
      refine ⟨by simp [List.take_length, applySMOp, add_chart], ?_, htake _ _, ?_⟩ <;>
        simp [List.take_length, applySMOp, add_chart]
  | addInsight a b c =>
      refine ⟨?_, ?_, ?_, htake _ _⟩ <;> simp [List.take_length, applySMOp, add_insight]
  | setMetadata k v => simp [applySMOp, set_metadata, List.take_length]
  | updateAgentStatus a st => simp [applySMOp, update_agent_status, List.take_length]
  | setFileInfo i => simp [applySMOp, set_file_info, List.take_length]
  | resetSession => exact absurd rfl hop

/-- Claim C8, witness: the theorem instantiated at the operation
`add_cleaning_log` on a state that already holds one record of each
kind. -/
theorem c8_append_only_witness :
    (SMOp.addCleaningLog "t2" "fill" "mean" ≠ SMOp.resetSession)
    ∧ (let s : SessionState :=
        { SessionState.init with
            cleaning_log := [⟨"t0", "drop", "dups"⟩],
            query_history := [⟨"t0", "q", PyValue.pyInt 1, "e"⟩],
            generated_charts := [⟨"t0", PyValue.other "fig", "bar", "chart"⟩],
            insights := [⟨"t0", "note", "general"⟩] }
       ((applySMOp s (SMOp.addCleaningLog "t2" "fill" "mean")).cleaning_log.take
            s.cleaning_log.length = s.cleaning_log
         ∧ (applySMOp s (SMOp.addCleaningLog "t2" "fill" "mean")).query_history.take
            s.query_history.length = s.query_history
         ∧ (applySMOp s (SMOp.addCleaningLog "t2" "fill" "mean")).generated_charts.take
            s.generated_charts.length = s.generated_charts
         ∧ (applySMOp s (SMOp.addCleaningLog "t2" "fill" "mean")).insights.take
            s.insights.length = s.insights)
       ∧ (applySMOp s (.addCleaningLog "t2" "fill" "mean")).cleaning_log
           = s.cleaning_log ++ [⟨"t2", "fill", "mean"⟩]
       ∧ (applySMOp s (.addQuery "t2" "q2" (PyValue.pyInt 2) "e2")).query_history
           = s.query_history ++ [⟨"t2", "q2", PyValue.pyInt 2, "e2"⟩]
       ∧ (applySMOp s (.addChart "t2" (PyValue.other "f2") "fill" "c2")).generated_charts
           = s.generated_charts ++ [⟨"t2", PyValue.other "f2", "fill", "c2"⟩]
       ∧ (applySMOp s (.addInsight "t2" "txt2" "cat2")).insights
           = s.insights ++ [⟨"t2", "txt2", "cat2"⟩]) :=
  ⟨by decide,
   c8_append_only (SMOp.addCleaningLog "t2" "fill" "mean") _
     "t2" "fill" "mean" "q2" "e2" "c2" "cat2" "txt2" (PyValue.pyInt 2) (PyValue.other "f2")
     (by decide)⟩

/-- The discriminated result summary produced by `serialize_history` in
`app.py`: one of `dataframe` (row count and column names), `series`
(length and name), `scalar` (the numeric value itself), or `text`
(the stringified value). -/
inductive ResultSummary where
  | dataframe (rows : Nat) (columns : List String)
  | series (length : Nat) (name : Option String)
  | scalar (value : PyValue)
  | text (value : String)
deriving DecidableEq

/-- One element of the list returned by `serialize_history`. -/
structure HistoryOut where
  timestamp : String
  query : String
  explanation : String
  result_summary : ResultSummary
deriving DecidableEq

/-- The per-item classifier inside `serialize_history` (`app.py` lines
91 to 107): the `isinstance` chain checks DataFrame first, then Series,
then `(int, float)` (which a Python bool also satisfies), and falls
through to the text summary built with `str(result)`. The runtime types
are disjoint, so the ordered chain coincides with this case analysis. -/
def summarize_result (result : PyValue) : ResultSummary :=
  match result with
  | .dataframe rows cols => .dataframe rows cols
  | .series len nm => .series len nm
  | r => if isinstance_int_float r then .scalar r else .text (py_str r)

/-- `serialize_history` from `app.py`: maps every entry of the session
query history to a record carrying the timestamp, query, explanation and
the normalized result summary. -/
def serialize_history (s : SessionState) : List HistoryOut :=
  s.query_history.map fun item =>
    ⟨item.timestamp, item.query, item.explanation, summarize_result item.result⟩

/-- Claim C6: the history normalizer is total and classifies by runtime
shape — a tabular result yields a `dataframe` summary with its row count
and column names, a named series yields a `series` summary with its
length and name, the scalar `3.14` yields a `scalar` summary holding
`3.14`, the string `"ok"` yields a `text` summary holding `"ok"`, ints,
floats and strings are classified likewise in general, and every value
falls into exactly one of the four summary shapes. -/
theorem c6_normalizer_total :
    (∀ ts q ex rows cols,
        serialize_history
            { SessionState.init with
                query_history := [⟨ts, q, PyValue.dataframe rows cols, ex⟩] }
          = [⟨ts, q, ex, ResultSummary.dataframe rows cols⟩])
    ∧ (∀ ts q ex len nm,
        serialize_history
            { SessionState.init with
                query_history := [⟨ts, q, PyValue.series len nm, ex⟩] }
          = [⟨ts, q, ex, ResultSummary.series len nm⟩])
    ∧ serialize_history
          { SessionState.init with
              query_history := [⟨"t", "avg", PyValue.pyFloat (3.14 : Rat), "e"⟩] }
        = [⟨"t", "avg", "e", ResultSummary.scalar (PyValue.pyFloat (3.14 : Rat))⟩]
    ∧ serialize_history
          { SessionState.init with
              query_history := [⟨"t", "q", PyValue.pyStr "ok", "e"⟩] }
        = [⟨"t", "q", "e", ResultSummary.text "ok"⟩]
    ∧ (∀ n : Int, summarize_result (PyValue.pyInt n) = ResultSummary.scalar (PyValue.pyInt n))
    ∧ (∀ x : Rat, summarize_result (PyValue.pyFloat x) = ResultSummary.scalar (PyValue.pyFloat x))
    ∧ (∀ s, summarize_result (PyValue.pyStr s) = ResultSummary.text s)
    ∧ (∀ r, summarize_result (PyValue.other r) = ResultSummary.text r)
    ∧ (∀ v, (∃ rows cols, summarize_result v = ResultSummary.dataframe rows cols)
        ∨ (∃ len nm, summarize_result v = ResultSummary.series len nm)
        ∨ (∃ u, summarize_result v = ResultSummary.scalar u)
        ∨ (∃ t, summarize_result v = ResultSummary.text t)) := by
  refine ⟨fun ts q ex rows cols => rfl, fun ts q ex len nm => rfl, rfl, rfl,
    fun n => rfl, fun x => rfl, fun s => rfl, fun r => rfl, fun v => ?_⟩
  cases v with
  | dataframe rows cols => exact Or.inl ⟨rows, cols, rfl⟩
  | series len nm => exact Or.inr (Or.inl ⟨len, nm, rfl⟩)
  | pyBool b => exact Or.inr (Or.inr (Or.inl ⟨PyValue.pyBool b, rfl⟩))
  | pyInt n => exact Or.inr (Or.inr (Or.inl ⟨PyValue.pyInt n, rfl⟩))
  | pyFloat x => exact Or.inr (Or.inr (Or.inl ⟨PyValue.pyFloat x, rfl⟩))
  | pyStr s => exact Or.inr (Or.inr (Or.inr ⟨s, rfl⟩))
  | other r => exact Or.inr (Or.inr (Or.inr ⟨r, rfl⟩))

/-- Claim C10: a Python boolean query result satisfies the
`isinstance(result, (int, float))` check (bool is a subtype of int), so
the normalizer classifies it as a numeric scalar carrying the boolean
itself, never as a text summary. -/
theorem c10_bool_scalar (b : Bool) (ts q ex : String) :
    serialize_history
        { SessionState.init with query_history := [⟨ts, q, PyValue.pyBool b, ex⟩] }
      = [⟨ts, q, ex, ResultSummary.scalar (PyValue.pyBool b)⟩]
    ∧ isinstance_int_float (PyValue.pyBool b) = true
    ∧ ∀ t, summarize_result (PyValue.pyBool b) ≠ ResultSummary.text t := by
  refine ⟨rfl, rfl, fun t h => ?_⟩
  simp [summarize_result, isinstance_int_float] at h

/-- The JSON text `json.dumps({"data": [], "layout": {}})` produces: the
canonical empty-figure placeholder substituted when encoding a figure
raises `TypeError`. -/
def empty_figure_json : String := "\x7b\"data\": [], \"layout\": \x7b\x7d\x7d"

/-- One element of the list returned by `serialize_chart_payloads`: the
original chart fields plus the added `figure_json` entry (the spread
`\x7b**chart, ...\x7d` builds a fresh dictionary, leaving the original
record untouched). -/
structure SerializedChart where
  fields : List (String × PyValue)
  figure_json : String
deriving DecidableEq

/-- The Python exceptions `serialize_chart_payloads` can let escape. -/
inductive PyError where
  | valueError
deriving DecidableEq

/-- `serialize_chart_payloads` from `app.py`: for each chart, encode
`chart.get("figure") or \x7b\x7d` with the Plotly JSON encoder inside
`try ... except TypeError`, substituting the empty-figure placeholder on
`TypeError`; any other exception (such as the `ValueError` that
`json.dumps` raises on a circular figure) is not caught and aborts the
whole call. -/
def serialize_chart_payloads : List Chart → Except PyError (List SerializedChart)
  | [] => .ok []
  | chart :: rest =>
      match chart.figure.getD (DumpResult.ok "\x7b\x7d") with
      | .ok json => (serialize_chart_payloads rest).map
          (fun l => ⟨chart.fields, json⟩ :: l)
      | .typeError => (serialize_chart_payloads rest).map
          (fun l => ⟨chart.fields, empty_figure_json⟩ :: l)
      | .valueError => .error .valueError

/-- The entry `serialize_chart_payloads` produces for one chart when no
uncaught exception occurs: the original fields plus the encoded figure,
with the placeholder substituted on a `TypeError`. (The `valueError` arm
is unreachable under the hypothesis of the theorem using this
definition.) -/
def serialize_chart_total (chart : Chart) : SerializedChart :=
  match chart.figure.getD (DumpResult.ok "\x7b\x7d") with
  | .ok json => ⟨chart.fields, json⟩
  | .typeError => ⟨chart.fields, empty_figure_json⟩
  | .valueError => ⟨chart.fields, empty_figure_json⟩

/-- Claim C5, counterexample: the claim says a chart whose figure fails
to encode FOR ANY REASON is replaced by the empty-figure placeholder,
but the code catches only `TypeError`: a figure whose encoding raises
`ValueError` makes the whole call fail instead of producing the
placeholder entry. -/
theorem c5_counterexample :
    serialize_chart_payloads [⟨[("title", PyValue.pyStr "t")], some DumpResult.valueError⟩]
      = .error PyError.valueError
    ∧ serialize_chart_payloads [⟨[("title", PyValue.pyStr "t")], some DumpResult.valueError⟩]
      ≠ .ok [⟨[("title", PyValue.pyStr "t")], empty_figure_json⟩] := by
  refine ⟨rfl, fun h => ?_⟩
  rw [show serialize_chart_payloads
        [⟨[("title", PyValue.pyStr "t")], some DumpResult.valueError⟩]
      = .error PyError.valueError from rfl] at h
  exact Except.noConfusion h

/-- Claim C5 (amended): as long as no figure encoding raises an
exception other than `TypeError`, `serialize_chart_payloads` returns one
serialized entry per chart, each one a fresh record carrying the
original chart fields unchanged plus the encoded figure, with the
canonical empty-figure placeholder substituted whenever encoding raises
`TypeError`; an encoding failure outside `TypeError` propagates and
fails the whole response. -/
theorem c5_chart_serialization (charts : List Chart)
    (h : ∀ c ∈ charts, c.figure ≠ some DumpResult.valueError) :
    serialize_chart_payloads charts = .ok (charts.map serialize_chart_total)
    ∧ ∀ c ∈ charts, (serialize_chart_total c).fields = c.fields := by
  constructor
  · induction charts with
    | nil => rfl
    | cons c rest ih =>
        have hc : c.figure ≠ some DumpResult.valueError := h c (List.mem_cons_self c rest)
        have hrest := ih (fun x hx => h x (List.mem_cons_of_mem c hx))
        unfold serialize_chart_payloads
        cases hfig : c.figure with
        | none => simp [hfig, hrest, serialize_chart_total, List.map_cons, Except.map]
        | some d =>
            cases d with
            | ok j => simp [hfig, hrest, serialize_chart_total, Except.map]
            | typeError => simp [hfig, hrest, serialize_chart_total, Except.map]
            | valueError => exact absurd hfig hc
  · intro c _
    unfold serialize_chart_total
    cases c.figure.getD (DumpResult.ok "\x7b\x7d") <;> rfl

/-- Claim C5, witness: a two-chart list with one successfully encoded
figure and one `TypeError` figure satisfies the hypothesis, and the
theorem yields the expected serialized entries. -/
theorem c5_chart_serialization_witness :
    (∀ c ∈ [(⟨[("title", PyValue.pyStr "a")], some (DumpResult.ok "\x7b\x7d")⟩ : Chart),
            ⟨[("title", PyValue.pyStr "b")], some DumpResult.typeError⟩],
        c.figure ≠ some DumpResult.valueError)
    ∧ (serialize_chart_payloads
          [⟨[("title", PyValue.pyStr "a")], some (DumpResult.ok "\x7b\x7d")⟩,
           ⟨[("title", PyValue.pyStr "b")], some DumpResult.typeError⟩]
        = .ok ([(⟨[("title", PyValue.pyStr "a")], some (DumpResult.ok "\x7b\x7d")⟩ : Chart),
                ⟨[("title", PyValue.pyStr "b")], some DumpResult.typeError⟩].map
                  serialize_chart_total)
        ∧ ∀ c ∈ [(⟨[("title", PyValue.pyStr "a")], some (DumpResult.ok "\x7b\x7d")⟩ : Chart),
                 ⟨[("title", PyValue.pyStr "b")], some DumpResult.typeError⟩],
            (serialize_chart_total c).fields = c.fields) :=
  ⟨by decide,
   c5_chart_serialization
     [⟨[("title", PyValue.pyStr "a")], some (DumpResult.ok "\x7b\x7d")⟩,
      ⟨[("title", PyValue.pyStr "b")], some DumpResult.typeError⟩]
     (by decide)⟩

/-- The process-wide state behind `SessionManager`: the class attribute
`_sessions` maps each session id to its `SessionState` object. Object
identity is explicit: the registry stores heap addresses and the heap
stores the current value of each `SessionState` object. -/
structure World where
  registry : List (String × Nat)
  heap : List SessionState
deriving DecidableEq

/-- A `SessionManager` instance: it stores the session id and, in its
`state` attribute, a direct reference to one `SessionState` object
(captured once, in `__init__`). -/
structure Handle where
  session_id : String
  state_addr : Nat
deriving DecidableEq

/-- `SessionManager.has_session`: pure existence check on the registry. -/
def has_session (w : World) (session_id : String) : Bool :=
  dictMem w.registry session_id

/-- `SessionManager.__init__`: when the id is absent from the registry
it registers a freshly constructed `SessionState()` under that id, then
binds `self.state` to the registry entry for the id. -/
def smInit (w : World) (session_id : String) : World × Handle :=
  match dictGet w.registry session_id with
  | some addr => (w, ⟨session_id, addr⟩)
  | none =>
      let addr := w.heap.length
      (⟨dictSet w.registry session_id addr, w.heap ++ [SessionState.init]⟩,
       ⟨session_id, addr⟩)

/-- `SessionManager.create_session`: registers a fresh `SessionState()`
under a new id and returns the id (`uuid.uuid4().hex` is modelled as an
externally supplied fresh identifier). -/
def create_session (w : World) (fresh_id : String) : World × String :=
  (⟨dictSet w.registry fresh_id w.heap.length, w.heap ++ [SessionState.init]⟩, fresh_id)

/-- `SessionManager.delete_session`: `_sessions.pop(session_id, None)`. -/
def delete_session (w : World) (session_id : String) : World :=
  { w with registry := dictPop w.registry session_id }

/-- Dereference the `state` attribute of a handle: the current value of
the `SessionState` object the handle captured. -/
def readState (w : World) (h : Handle) : SessionState :=
  w.heap.getD h.state_addr SessionState.init

/-- In-place mutation of the `SessionState` object a handle references
(what every `add_*`, `set_*` and `update_*` method does through
`self.state`): visible through every alias of that object. -/
def applyOpAt (w : World) (h : Handle) (op : SMOp) : World :=
  { w with heap := w.heap.set h.state_addr (applySMOp (readState w h) op) }

/-- `SessionManager.reset_session`: installs a freshly constructed
`SessionState()` object in the registry slot for the handle id and
rebinds THIS handle to it. The old object is not mutated; other handles
keep referencing it. -/
def reset_session (w : World) (h : Handle) : World × Handle :=
  (⟨dictSet w.registry h.session_id w.heap.length, w.heap ++ [SessionState.init]⟩,
   ⟨h.session_id, w.heap.length⟩)

/-- `get_session_or_abort` from `app.py`: reads the `X-Session-Id`
header; when the header is missing, empty, or names an unknown session,
it aborts with a 400 error before any `SessionManager` is constructed;
otherwise it constructs a `SessionManager` for the (existing) id. -/
def get_session_or_abort (w : World) (header_session_id : Option String) :
    Except String (World × Handle) :=
  match header_session_id with
  | none => .error "Missing or invalid session id"
  | some sid =>
      if sid = "" ∨ has_session w sid = false then .error "Missing or invalid session id"
      else .ok (smInit w sid)

/-- Writing a binding and reading it back through the first-match lookup
returns the written value. -/
theorem dictGet_dictSet {β : Type} (d : List (String × β)) (k : String) (v : β) :
    dictGet (dictSet d k v) k = some v := by
  induction d with
  | nil => simp [dictSet, dictGet]
  | cons p rest ih =>
      by_cases h : p.1 = k
      · simp [dictSet, dictGet, h]
      · simp [dictSet, dictGet, h, ih]

/-- Reading just past the end of an extended heap returns the appended
cell. -/
theorem getD_append_length {α : Type} (l : List α) (a dflt : α) :
    (l ++ [a]).getD l.length dflt = a := by
  simp [List.getD, List.getElem?_append_right (Nat.le_refl l.length)]

/-- Extending a heap does not change the cells below the old length. -/
theorem getD_append_lt {α : Type} (l l2 : List α) (i : Nat) (dflt : α)
    (hi : i < l.length) : (l ++ l2).getD i dflt = l.getD i dflt := by
  simp [List.getD, List.getElem?_append, hi]

/-- Claim C1, counterexample: on a world with no sessions, the id `"x"`
has never been created and `has_session` is false for it, yet
constructing `SessionManager("x")` does not fail: it silently registers
a fresh empty `SessionState` (afterwards `has_session` is true and the
handle reads the empty state), so resolution by construction IS
auto-creating. -/
theorem c1_counterexample :
    has_session ⟨[], []⟩ "x" = false
    ∧ has_session (smInit ⟨[], []⟩ "x").1 "x" = true
    ∧ readState (smInit ⟨[], []⟩ "x").1 (smInit ⟨[], []⟩ "x").2 = SessionState.init := by
  decide

/-- Claim C1 (amended): for a session id that is not registered,
`has_session` returns false and the guarded resolution path
`get_session_or_abort` used by the API routes fails with a 400 error —
for a missing header as well — before any state is registered; the raw
`SessionManager` constructor, by contrast, silently registers a fresh
empty `SessionState` for the unknown id. -/
theorem c1_resolution (w : World) (session_id : String)
    (h : has_session w session_id = false) :
    get_session_or_abort w (some session_id) = .error "Missing or invalid session id"
    ∧ get_session_or_abort w none = .error "Missing or invalid session id"
    ∧ has_session (smInit w session_id).1 session_id = true
    ∧ readState (smInit w session_id).1 (smInit w session_id).2 = SessionState.init := by
  have hget : dictGet w.registry session_id = none := by
    unfold has_session dictMem at h
    cases hg : dictGet w.registry session_id with
    | none => rfl
    | some a => rw [hg] at h; simp at h
  refine ⟨by simp [get_session_or_abort, h], rfl, ?_, ?_⟩
  · simp [smInit, hget, has_session, dictMem, dictGet_dictSet]
  · simp [smInit, hget, readState, getD_append_length]

/-- Claim C1, witness: the amended theorem applied to the empty world
and the never-created id `"x"`. -/
theorem c1_resolution_witness :
    has_session ⟨[], []⟩ "x" = false
    ∧ (get_session_or_abort ⟨[], []⟩ (some "x") = .error "Missing or invalid session id"
       ∧ get_session_or_abort ⟨[], []⟩ none = .error "Missing or invalid session id"
       ∧ has_session (smInit ⟨[], []⟩ "x").1 "x" = true
       ∧ readState (smInit ⟨[], []⟩ "x").1 (smInit ⟨[], []⟩ "x").2 = SessionState.init) :=
  ⟨by decide, c1_resolution ⟨[], []⟩ "x" (by decide)⟩

/-- A world holding the single session `"s"`, whose state object was
mutated by one `add_cleaning_log` call issued through a handle obtained
before the reset under study. -/
def c2_w1 : World := (create_session ⟨[], []⟩ "s").1

/-- A handle for session `"s"` obtained before the reset. -/
def c2_h1 : Handle := (smInit c2_w1 "s").2

/-- The world after logging one cleaning action through `c2_h1`. -/
def c2_w2 : World := applyOpAt c2_w1 c2_h1 (SMOp.addCleaningLog "t1" "fill" "mean")

/-- The world and fresh handle after `reset_session` is invoked through
a second, newly resolved handle for `"s"`. -/
def c2_after : World × Handle := reset_session c2_w2 (smInit c2_w2 "s").2

/-- Claim C2, counterexample: after `reset_session` on session `"s"`,
reading through the handle obtained BEFORE the reset still shows the
pre-reset cleaning log (the handle references the old state object, not
the live registry slot), while the registry slot itself now holds the
fresh empty state — contradicting the claim that pre-existing handles
observe the reset state. -/
theorem c2_counterexample :
    (readState c2_after.1 c2_h1).cleaning_log = [⟨"t1", "fill", "mean"⟩]
    ∧ (readState c2_after.1 c2_h1).cleaning_log ≠ []
    ∧ readState c2_after.1 c2_after.2 = SessionState.init := by decide

/-- Claim C2 (amended): after `reset_session`, the handle the reset
returns (the one whose `state` attribute was rebound) and any handle
resolved afterwards for that id observe the fresh empty state — empty
`cleaning_log`, `query_history`, `generated_charts` and `insights`, and
no current dataframe; but a handle obtained before the reset keeps
referencing the old state object and observes exactly what it observed
before the reset, not the reset state. -/
theorem c2_reset_visibility (w : World) (h g : Handle)
    (hg : g.state_addr < w.heap.length) :
    readState (reset_session w h).1 (reset_session w h).2 = SessionState.init
    ∧ readState (reset_session w h).1 (smInit (reset_session w h).1 h.session_id).2
        = SessionState.init
    ∧ readState (reset_session w h).1 g = readState w g := by
  refine ⟨?_, ?_, ?_⟩
  · simp [reset_session, readState, getD_append_length]
  · simp [reset_session, smInit, dictGet_dictSet, readState, getD_append_length]
  · exact getD_append_lt w.heap [SessionState.init] g.state_addr SessionState.init hg

/-- Claim C2, witness: the amended theorem applied to a world holding
one session `"s"` whose state has a nonempty insights list; the
pre-existing handle keeps showing that nonempty state after the reset. -/
theorem c2_reset_visibility_witness :
    ((0 : Nat) < (⟨[("s", 0)], [{ SessionState.init with
        insights := [⟨"t", "n", "general"⟩] }]⟩ : World).heap.length)
    ∧ (readState (reset_session ⟨[("s", 0)], [{ SessionState.init with
          insights := [⟨"t", "n", "general"⟩] }]⟩ ⟨"s", 0⟩).1
        (reset_session ⟨[("s", 0)], [{ SessionState.init with
          insights := [⟨"t", "n", "general"⟩] }]⟩ ⟨"s", 0⟩).2 = SessionState.init
       ∧ readState (reset_session ⟨[("s", 0)], [{ SessionState.init with
            insights := [⟨"t", "n", "general"⟩] }]⟩ ⟨"s", 0⟩).1
          (smInit (reset_session ⟨[("s", 0)], [{ SessionState.init with
            insights := [⟨"t", "n", "general"⟩] }]⟩ ⟨"s", 0⟩).1 "s").2 = SessionState.init
       ∧ readState (reset_session ⟨[("s", 0)], [{ SessionState.init with
            insights := [⟨"t", "n", "general"⟩] }]⟩ ⟨"s", 0⟩).1 ⟨"s", 0⟩
          = readState ⟨[("s", 0)], [{ SessionState.init with
            insights := [⟨"t", "n", "general"⟩] }]⟩ ⟨"s", 0⟩) :=
  ⟨by decide,
   c2_reset_visibility
     ⟨[("s", 0)], [{ SessionState.init with insights := [⟨"t", "n", "general"⟩] }]⟩
     ⟨"s", 0⟩ ⟨"s", 0⟩ (by decide)⟩

/-- The uniform result dictionary an upload agent returns:
`success`, `message`, and an optional `preview` payload. -/
structure AgentResult where
  success : Bool
  message : String
  preview : List (String × PyValue)
deriving DecidableEq

/-- Modelled from the spec: the `agents` package (`InputAgent.execute`)
is not among the sources. Per the external-interface contract the upload
agent returns `(success, message, preview?)`; per the workflow rules a
successful upload sets the `input_complete` readiness flag and assigns
`rawDataset` and `currentDataset` (via `set_dataframe` with type `raw`,
which also assigns the current slot) and records the uploaded file info,
while a failed upload leaves the state unchanged. The agent does not
touch the route-level latest-result caches (`dataset_preview`,
`cleaning_summary`, `last_query_result`, `chart_payloads`,
`report_status`), which only the route handlers in `app.py` write. -/
def inputAgent_execute (s : SessionState) (df : DataFrame)
    (file_info : List (String × PyValue)) (res : AgentResult) : SessionState :=
  if res.success then
    set_file_info (update_agent_status (set_dataframe s df "raw") "input_complete" true)
      file_info
  else s

/-- The session-state effect of the web route `upload_step` in
`app.py`: run the upload agent; on success overwrite `dataset_preview`
with the returned preview and clear `cleaning_summary`,
`last_query_result`, `chart_payloads` and `report_status`; on failure
only flash the error. -/
def upload_step (s : SessionState) (df : DataFrame)
    (file_info : List (String × PyValue)) (res : AgentResult) : SessionState :=
  let s1 := inputAgent_execute s df file_info res
  if res.success then
    { s1 with
        dataset_preview := res.preview,
        cleaning_summary := [],
        last_query_result := [],
        chart_payloads := [],
        report_status := [] }
  else s1

/-- The session-state effect of the API route `upload_file` in
`app.py`: run the upload agent and return its result; the route itself
writes nothing into the session state. -/
def upload_file (s : SessionState) (df : DataFrame)
    (file_info : List (String × PyValue)) (res : AgentResult) : SessionState :=
  inputAgent_execute s df file_info res

/-- A session state carrying one stale entry in each latest-result
cache, as left behind by earlier clean, query, visualize and report
steps. -/
def c3_state : SessionState :=
  { SessionState.init with
      cleaning_summary := [("dropped_rows", PyValue.pyInt 3)],
      last_query_result := [("answer", PyValue.pyInt 42)],
      chart_payloads := [⟨[("title", PyValue.pyStr "old")], some (DumpResult.ok "\x7b\x7d")⟩],
      report_status := [("filename", PyValue.pyStr "r.pdf")] }

/-- Claim C3, counterexample: a successful upload through the API route
`upload_file` leaves every stale cache in place — the cleaning summary,
last query result, chart payloads and report status from before the
upload all survive it, contradicting the claim that every successful
upload (web or API) clears them. -/
theorem c3_counterexample :
    (upload_file c3_state ⟨["a"], [[PyValue.pyInt 1]]⟩ [] ⟨true, "ok", []⟩).cleaning_summary
      = [("dropped_rows", PyValue.pyInt 3)]
    ∧ (upload_file c3_state ⟨["a"], [[PyValue.pyInt 1]]⟩ [] ⟨true, "ok", []⟩).last_query_result
      = [("answer", PyValue.pyInt 42)]
    ∧ (upload_file c3_state ⟨["a"], [[PyValue.pyInt 1]]⟩ [] ⟨true, "ok", []⟩).chart_payloads ≠ []
    ∧ (upload_file c3_state ⟨["a"], [[PyValue.pyInt 1]]⟩ [] ⟨true, "ok", []⟩).report_status ≠ []
    := by decide

/-- Claim C3 (amended): a successful upload through the WEB route
`upload_step` clears the cached cleaning summary, last query result,
chart payloads and report status; the API route `upload_file` applies
only the agent effect and leaves all four caches exactly as they were,
so a stale cache can outlive an API upload. -/
theorem c3_upload_cache_clearing (s : SessionState) (df : DataFrame)
    (file_info : List (String × PyValue)) (res : AgentResult)
    (hs : res.success = true) :
    (upload_step s df file_info res).cleaning_summary = []
    ∧ (upload_step s df file_info res).last_query_result = []
    ∧ (upload_step s df file_info res).chart_payloads = []
    ∧ (upload_step s df file_info res).report_status = []
    ∧ (upload_step s df file_info res).dataset_preview = res.preview
    ∧ (upload_file s df file_info res).cleaning_summary = s.cleaning_summary
    ∧ (upload_file s df file_info res).last_query_result = s.last_query_result
    ∧ (upload_file s df file_info res).chart_payloads = s.chart_payloads
    ∧ (upload_file s df file_info res).report_status = s.report_status := by
  unfold upload_step upload_file inputAgent_execute set_file_info update_agent_status
    set_dataframe
  simp [hs]

/-- Claim C3, witness: the amended theorem applied to the stale-cache
state and a successful agent result. -/
theorem c3_upload_cache_clearing_witness :
    ((⟨true, "ok", [("rows", PyValue.pyInt 1)]⟩ : AgentResult).success = true)
    ∧ ((upload_step c3_state ⟨["a"], [[PyValue.pyInt 1]]⟩ []
          ⟨true, "ok", [("rows", PyValue.pyInt 1)]⟩).cleaning_summary = []
       ∧ (upload_step c3_state ⟨["a"], [[PyValue.pyInt 1]]⟩ []
          ⟨true, "ok", [("rows", PyValue.pyInt 1)]⟩).last_query_result = []
       ∧ (upload_step c3_state ⟨["a"], [[PyValue.pyInt 1]]⟩ []
          ⟨true, "ok", [("rows", PyValue.pyInt 1)]⟩).chart_payloads = []
       ∧ (upload_step c3_state ⟨["a"], [[PyValue.pyInt 1]]⟩ []
          ⟨true, "ok", [("rows", PyValue.pyInt 1)]⟩).report_status = []
       ∧ (upload_step c3_state ⟨["a"], [[PyValue.pyInt 1]]⟩ []
          ⟨true, "ok", [("rows", PyValue.pyInt 1)]⟩).dataset_preview
          = (⟨true, "ok", [("rows", PyValue.pyInt 1)]⟩ : AgentResult).preview
       ∧ (upload_file c3_state ⟨["a"], [[PyValue.pyInt 1]]⟩ []
          ⟨true, "ok", [("rows", PyValue.pyInt 1)]⟩).cleaning_summary
          = c3_state.cleaning_summary
       ∧ (upload_file c3_state ⟨["a"], [[PyValue.pyInt 1]]⟩ []
          ⟨true, "ok", [("rows", PyValue.pyInt 1)]⟩).last_query_result
          = c3_state.last_query_result
       ∧ (upload_file c3_state ⟨["a"], [[PyValue.pyInt 1]]⟩ []
          ⟨true, "ok", [("rows", PyValue.pyInt 1)]⟩).chart_payloads
          = c3_state.chart_payloads
       ∧ (upload_file c3_state ⟨["a"], [[PyValue.pyInt 1]]⟩ []
          ⟨true, "ok", [("rows", PyValue.pyInt 1)]⟩).report_status
          = c3_state.report_status) :=
  ⟨by decide,
   c3_upload_cache_clearing c3_state ⟨["a"], [[PyValue.pyInt 1]]⟩ []
     ⟨true, "ok", [("rows", PyValue.pyInt 1)]⟩ (by decide)⟩

/-- A heap of pandas dataframe objects: the caller and the session
slots reference dataframes by address, so that `df.copy()` (a new
object with the same value) and in-place mutation are both expressible. -/
structure DfStore where
  cells : List DataFrame
deriving DecidableEq

/-- The three dataframe slots of one `SessionState`, holding references
to dataframe objects. -/
structure DfSlots where
  raw_dataframe : Option Nat := none
  cleaned_dataframe : Option Nat := none
  current_dataframe : Option Nat := none
deriving DecidableEq

/-- Dereference a dataframe address. -/
def dfRead (store : DfStore) (addr : Nat) : DataFrame :=
  store.cells.getD addr ⟨[], []⟩

/-- `df.copy()`: allocate a new dataframe object with the same value
and return its address. -/
def dfCopy (store : DfStore) (addr : Nat) : DfStore × Nat :=
  (⟨store.cells ++ [dfRead store addr]⟩, store.cells.length)

/-- In-place mutation of the dataframe object at an address (what e.g.
`df.drop(..., inplace=True)` or column assignment does to the object the
caller still holds). -/
def dfWrite (store : DfStore) (addr : Nat) (df : DataFrame) : DfStore :=
  ⟨store.cells.set addr df⟩

/-- `SessionManager.set_dataframe` at the object level: the `raw` and
`cleaned` branches store one copy of the argument in their slot, and
every branch stores a further copy in the `current` slot (`df.copy()` is
evaluated separately for each assignment). -/
def set_dataframe_heap (store : DfStore) (slots : DfSlots) (df_addr : Nat)
    (df_type : String) : DfStore × DfSlots :=
  if df_type = "raw" then
    let c1 := dfCopy store df_addr
    let c2 := dfCopy c1.1 df_addr
    (c2.1, { slots with raw_dataframe := some c1.2, current_dataframe := some c2.2 })
  else if df_type = "cleaned" then
    let c1 := dfCopy store df_addr
    let c2 := dfCopy c1.1 df_addr
    (c2.1, { slots with cleaned_dataframe := some c1.2, current_dataframe := some c2.2 })
  else
    let c1 := dfCopy store df_addr
    (c1.1, { slots with current_dataframe := some c1.2 })

/-- `SessionManager.get_dataframe` at the object level: dereference the
requested slot. -/
def get_dataframe_heap (store : DfStore) (slots : DfSlots) (df_type : String) :
    Option DataFrame :=
  if df_type = "raw" then slots.raw_dataframe.map (dfRead store)
  else if df_type = "cleaned" then slots.cleaned_dataframe.map (dfRead store)
  else slots.current_dataframe.map (dfRead store)

/-- In-place mutation at one address leaves every other address of the
dataframe heap unchanged. -/
theorem getD_set_ne_addr (l : List DataFrame) (r i : Nat) (v : DataFrame)
    (hne : r ≠ i) : (l.set r v).getD i ⟨[], []⟩ = l.getD i ⟨[], []⟩ := by
  simp [List.getD, List.getElem?_set_ne hne]

/-- Reading the second of two appended cells after a write below the old
length returns that cell. -/
theorem dfRead_two_snd (l : List DataFrame) (x y v : DataFrame) (r : Nat)
    (hr : r < l.length) :
    dfRead ⟨(l ++ [x, y]).set r v⟩ (l.length + 1) = y := by
  unfold dfRead
  rw [show ((⟨(l ++ [x, y]).set r v⟩ : DfStore).cells) = (l ++ [x, y]).set r v from rfl]
  rw [getD_set_ne_addr _ _ _ _ (by omega)]
  have h2 : l.length + 1 - l.length = 1 := by omega
  simp [List.getD, List.getElem?_append_right (show l.length ≤ l.length + 1 by omega), h2]

/-- Reading the first of two appended cells after a write below the old
length returns that cell. -/
theorem dfRead_two_fst (l : List DataFrame) (x y v : DataFrame) (r : Nat)
    (hr : r < l.length) :
    dfRead ⟨(l ++ [x, y]).set r v⟩ l.length = x := by
  unfold dfRead
  rw [show ((⟨(l ++ [x, y]).set r v⟩ : DfStore).cells) = (l ++ [x, y]).set r v from rfl]
  rw [getD_set_ne_addr _ _ _ _ (by omega)]
  simp [List.getD, List.getElem?_append_right (Nat.le_refl l.length)]

/-- Reading one appended cell after a write below the old length
returns that cell. -/
theorem dfRead_one (l : List DataFrame) (x v : DataFrame) (r : Nat)
    (hr : r < l.length) :
    dfRead ⟨(l ++ [x]).set r v⟩ l.length = x := by
  unfold dfRead
  rw [show ((⟨(l ++ [x]).set r v⟩ : DfStore).cells) = (l ++ [x]).set r v from rfl]
  rw [getD_set_ne_addr _ _ _ _ (by omega)]
  simp [List.getD, List.getElem?_append_right (Nat.le_refl l.length)]

/-- Growing the heap does not change existing cells. -/
theorem dfRead_grow (store : DfStore) (x : DataFrame) (r : Nat)
    (hr : r < store.cells.length) :
    dfRead ⟨store.cells ++ [x]⟩ r = dfRead store r := by
  unfold dfRead
  exact getD_append_lt _ _ _ _ hr

/-- Claim C9: `set_dataframe` stores defensive copies. After storing a
caller-held dataframe object (any `df_type`), mutating that object in
place does not change what `get_dataframe` returns: the `current` slot —
and additionally the `raw` slot when the type was `raw`, or the
`cleaned` slot when it was `cleaned` — still holds the value the
dataframe had at the moment it was stored. -/
theorem c9_defensive_copies (store : DfStore) (slots : DfSlots) (r : Nat)
    (t : String) (v : DataFrame) (hr : r < store.cells.length) :
    get_dataframe_heap
        (dfWrite (set_dataframe_heap store slots r t).1 r v)
        (set_dataframe_heap store slots r t).2 "current"
      = some (dfRead store r)
    ∧ (t = "raw" →
        get_dataframe_heap
            (dfWrite (set_dataframe_heap store slots r t).1 r v)
            (set_dataframe_heap store slots r t).2 "raw"
          = some (dfRead store r))
    ∧ (t = "cleaned" →
        get_dataframe_heap
            (dfWrite (set_dataframe_heap store slots r t).1 r v)
            (set_dataframe_heap store slots r t).2 "cleaned"
          = some (dfRead store r)) := by
  by_cases h1 : t = "raw"
  · subst h1
    simp [set_dataframe_heap, get_dataframe_heap, dfWrite, dfCopy]
    exact ⟨by rw [dfRead_two_snd _ _ _ _ _ hr, dfRead_grow _ _ _ hr],
           dfRead_two_fst _ _ _ _ _ hr⟩
  · by_cases h2 : t = "cleaned"
    · subst h2
      simp [set_dataframe_heap, get_dataframe_heap, dfWrite, dfCopy]
      exact ⟨by rw [dfRead_two_snd _ _ _ _ _ hr, dfRead_grow _ _ _ hr],
             dfRead_two_fst _ _ _ _ _ hr⟩
    · simp [set_dataframe_heap, get_dataframe_heap, dfWrite, dfCopy, h1, h2]
      exact dfRead_one _ _ _ _ hr

/-- Claim C9, witness: a one-cell store holding a one-row dataframe,
stored with type `raw` and then mutated in place; both the current and
raw slots still return the original value. -/
theorem c9_defensive_copies_witness :
    ((0 : Nat) < (⟨[⟨["a"], [[PyValue.pyInt 1]]⟩]⟩ : DfStore).cells.length)
    ∧ (get_dataframe_heap
          (dfWrite (set_dataframe_heap ⟨[⟨["a"], [[PyValue.pyInt 1]]⟩]⟩ {} 0 "raw").1 0
            ⟨["a"], [[PyValue.pyInt 2]]⟩)
          (set_dataframe_heap ⟨[⟨["a"], [[PyValue.pyInt 1]]⟩]⟩ {} 0 "raw").2 "current"
        = some (dfRead ⟨[⟨["a"], [[PyValue.pyInt 1]]⟩]⟩ 0)
       ∧ ("raw" = "raw" →
          get_dataframe_heap
              (dfWrite (set_dataframe_heap ⟨[⟨["a"], [[PyValue.pyInt 1]]⟩]⟩ {} 0 "raw").1 0
                ⟨["a"], [[PyValue.pyInt 2]]⟩)
              (set_dataframe_heap ⟨[⟨["a"], [[PyValue.pyInt 1]]⟩]⟩ {} 0 "raw").2 "raw"
            = some (dfRead ⟨[⟨["a"], [[PyValue.pyInt 1]]⟩]⟩ 0))
       ∧ ("raw" = "cleaned" →
          get_dataframe_heap
              (dfWrite (set_dataframe_heap ⟨[⟨["a"], [[PyValue.pyInt 1]]⟩]⟩ {} 0 "raw").1 0
                ⟨["a"], [[PyValue.pyInt 2]]⟩)
              (set_dataframe_heap ⟨[⟨["a"], [[PyValue.pyInt 1]]⟩]⟩ {} 0 "raw").2 "cleaned"
            = some (dfRead ⟨[⟨["a"], [[PyValue.pyInt 1]]⟩]⟩ 0))) :=
  ⟨by decide,
   c9_defensive_copies ⟨[⟨["a"], [[PyValue.pyInt 1]]⟩]⟩ {} 0 "raw"
     ⟨["a"], [[PyValue.pyInt 2]]⟩ (by decide)⟩
